import Mathlib

/-!
Shallow embedding of `src/mkslides_mcp_server/server.py` (mdslides-mcp-server).

The embedding follows the source line by line.  Filesystem and process
effects are made explicit: an `Env` record fixes the exogenous behaviour of
one build attempt (which primitive operations fail, what the external
`mkslides` process does), an `FsState` record holds the observable
filesystem state relevant to one build (the publish slot
`/app/mkslides_output/latest`, the three workspace temporaries), and
`generate_slides` computes the call's outcome, the final state, the
sequence of slot states a concurrent HTTP reader could observe, the list of
side-effect events performed, and the external command line assembled.
-/

namespace MkSlides

/-- Source line 21: `server_port = 8080`. -/
def server_port : Nat := 8080

/-- Source line 22: `output_base_dir = "/app/mkslides_output"`. -/
def output_base_dir : String := "/app/mkslides_output"

/-- Source line 23: `latest_output_dir = os.path.join(output_base_dir, "latest")`. -/
def latest_output_dir : String := output_base_dir ++ "/latest"

/-- The name `tempfile.NamedTemporaryFile(suffix=".md")` hands back (abstract token). -/
def temp_md_path : String := "/tmp/tmpmd.md"

/-- The name `tempfile.NamedTemporaryFile(suffix=".yml")` hands back (abstract token). -/
def temp_config_path : String := "/tmp/tmpcfg.yml"

/-- The name `tempfile.mkdtemp()` hands back (abstract token). -/
def temp_build_path : String := "/tmp/tmpbuild"

/-- Source line 250: the returned URL
`f"http://localhost:{server_port}/latest/index.html"`. -/
def latest_url : String := "http://localhost:" ++ toString server_port ++ "/latest/index.html"

/-- The keyword arguments of `generate_slides` (source lines 66–71). -/
structure Request where
  markdown_content : String
  slides_theme : Option String := none
  slides_highlight_theme : Option String := none
  revealjs_options : Option (List (String × String)) := none
deriving Repr, DecidableEq

/-- Python truthiness of an `Optional[str]` argument: `None` and `""` are falsy. -/
def truthyStr : Option String → Bool
  | none => false
  | some s => !(s == "")

/-- Python truthiness of an `Optional[Dict]` argument: `None` and `{}` are falsy. -/
def truthyDict : Option (List (String × String)) → Bool
  | none => false
  | some l => !l.isEmpty

/-- The `config['slides']` section assembled at source lines 157–164. -/
structure SlidesSection where
  theme : Option String := none
  highlight_theme : Option String := none
deriving Repr, DecidableEq

/-- The effective configuration dict assembled at source lines 153–168:
at most the two top-level sections `slides` and `revealjs`. -/
structure EffectiveConfig where
  slides : Option SlidesSection := none
  revealjs : Option (List (String × String)) := none
deriving Repr, DecidableEq

/-- Source line 154: the guard
`if slides_theme or slides_highlight_theme or revealjs_options`. -/
def wantConfig (req : Request) : Bool :=
  truthyStr req.slides_theme || truthyStr req.slides_highlight_theme ||
    truthyDict req.revealjs_options

/-- Source lines 153–168: the configuration dict `generate_slides` builds, or
`none` when the `if slides_theme or slides_highlight_theme or revealjs_options`
guard is false and no config file is materialized. -/
def composeConfig (req : Request) : Option EffectiveConfig :=
  if wantConfig req then
    some
      { slides :=
          if truthyStr req.slides_theme || truthyStr req.slides_highlight_theme then
            some
              { theme := if truthyStr req.slides_theme then req.slides_theme else none,
                highlight_theme :=
                  if truthyStr req.slides_highlight_theme then req.slides_highlight_theme
                  else none }
          else none,
        revealjs :=
          if truthyDict req.revealjs_options then req.revealjs_options else none }
  else none

/-- Exceptions `generate_slides` can surface: the `ValueError` of line 141, the
`RuntimeError`s of lines 221/228/231/234, and an uncaught filesystem error
(`OSError`) from a primitive operation outside any `except` clause. -/
inductive Err where
  | valueError (msg : String)
  | runtimeError (msg : String)
  | osError (msg : String)
deriving Repr, DecidableEq

/-- What one call returns to the caller: the URL of line 250 or a raised exception. -/
inductive Outcome where
  | ok (url : String)
  | raised (e : Err)
deriving Repr, DecidableEq

/-- Filesystem and process side effects `generate_slides` performs, in order. -/
inductive Event where
  | createTempMd
  | createTempConfig
  | clearSlot
  | makeSlotDir
  | makeTempBuildDir
  | runBuilder
  | moveItem (name : String)
  | removeTempMd
  | removeTempConfig
  | removeTempBuildDir
deriving Repr, DecidableEq

/-- The observable filesystem state relevant to one build attempt.
`slot` is the directory listing of `latest_output_dir` (`none` = the directory
is absent); `mdFile`/`configFile` say whether the two temporary files exist;
`buildDir` is the listing of the temporary build directory. -/
structure FsState where
  slot : Option (List String) := none
  mdFile : Bool := false
  configFile : Bool := false
  buildDir : Option (List String) := none
deriving Repr, DecidableEq

/-- Outcome of `subprocess.run(command, capture_output=True, text=True, check=True)`
(source line 198): normal exit 0 with the files the builder wrote into the
build directory, `CalledProcessError` on a non-zero exit, `FileNotFoundError`
when the executable cannot be located, or any other exception. -/
inductive RunOutcome where
  | success (files : List String) (stdout stderr : String)
  | calledProcessError (returncode : Nat) (stdout stderr : String)
  | fileNotFound
  | otherError (msg : String)
deriving Repr, DecidableEq

/-- Exogenous behaviour of the filesystem and of the external tool during one
attempt: which primitive operation raises, and what the builder does. -/
structure Env where
  createMdFails : Bool := false
  createConfigFails : Bool := false
  clearSlotFails : Bool := false
  makeSlotDirFails : Bool := false
  makeBuildDirFails : Bool := false
  run : RunOutcome
  moveFailsAt : Option Nat := none
  removeMdFails : Bool := false
  removeConfigFails : Bool := false
  removeBuildDirFails : Bool := false
deriving Repr, DecidableEq

/-- Everything one call to `generate_slides` does: the outcome, the final
filesystem state, every slot state a concurrent reader could observe (in
order), the side-effect events performed, and the external command line
(`none` when the attempt never assembled one). -/
structure GSResult where
  result : Outcome
  final : FsState
  slotTrace : List (Option (List String))
  events : List Event
  command : Option (List String)
deriving Repr, DecidableEq

/-- Message of the exception modelled for a failing `shutil.move` (line 214). -/
def move_error_text : String := "move failed"

/-- Source lines 243–245 of the `finally` block: remove the temporary build
directory when it exists; a failure there propagates. -/
def cleanupBuild (env : Env) (s : FsState) (evs : List Event) :
    FsState × List Event × Option Err :=
  match s.buildDir with
  | some _ =>
    if env.removeBuildDirFails then
      (s, evs ++ [Event.removeTempBuildDir],
        some (Err.osError "could not remove temporary build directory"))
    else ({ s with buildDir := none }, evs ++ [Event.removeTempBuildDir], none)
  | none => (s, evs, none)

/-- Source lines 240–242 of the `finally` block: remove the temporary config
file when it exists, then fall through to the build directory. -/
def cleanupConfig (env : Env) (s : FsState) (evs : List Event) :
    FsState × List Event × Option Err :=
  if s.configFile then
    if env.removeConfigFails then
      (s, evs ++ [Event.removeTempConfig],
        some (Err.osError "could not remove temporary config file"))
    else cleanupBuild env { s with configFile := false } (evs ++ [Event.removeTempConfig])
  else cleanupBuild env s evs

/-- Source lines 235–245: the `finally` block. Each removal is guarded by
`os.path.exists`; the removals run in order and a removal that raises aborts
the rest of the block and propagates (there is no `try`/`except` inside the
`finally`). -/
def cleanup (env : Env) (s : FsState) : FsState × List Event × Option Err :=
  if s.mdFile then
    if env.removeMdFails then
      (s, [Event.removeTempMd], some (Err.osError "could not remove temporary markdown file"))
    else cleanupConfig env { s with mdFile := false } [Event.removeTempMd]
  else cleanupConfig env s []

/-- Python `try`/`finally` semantics around the pending outcome: the `finally`
block (modelled by `cleanup`) always runs, and when a removal inside it raises,
that exception replaces the pending return value or in-flight exception. -/
def finishWith (env : Env) (pending : Outcome) (s : FsState)
    (trace : List (Option (List String))) (evs : List Event)
    (cmd : Option (List String)) : GSResult :=
  match cleanup env s with
  | (s2, cevs, none) =>
    { result := pending, final := s2, slotTrace := trace, events := evs ++ cevs,
      command := cmd }
  | (s2, cevs, some e) =>
    { result := Outcome.raised e, final := s2, slotTrace := trace, events := evs ++ cevs,
      command := cmd }

/-- Source lines 211–215: the `for item in os.listdir(temp_build_dir)` loop
moving builder output into the slot one entry at a time.  Each completed move
is a new observable slot state; `failAt` is the index at which `shutil.move`
raises (the fourth component is `true` when it did). -/
def moveLoop (items : List String) (failAt : Option Nat) (idx : Nat) (s : FsState)
    (trace : List (Option (List String))) (evs : List Event) :
    FsState × List (Option (List String)) × List Event × Bool :=
  match items with
  | [] => (s, trace, evs, false)
  | item :: rest =>
    if failAt = some idx then (s, trace, evs, true)
    else
      let slotItems := (s.slot.getD []) ++ [item]
      let s1 : FsState :=
        { s with slot := some slotItems, buildDir := s.buildDir.map (fun l => l.erase item) }
      moveLoop rest failAt (idx + 1) s1 (trace ++ [some slotItems])
        (evs ++ [Event.moveItem item])

/-- Source lines 196–245: the `try` block around `subprocess.run` with its
`except` clauses and the `finally`.  On success the move loop runs; a move
failure raises `RuntimeError("Failed to move generated files: ...")` inside
the inner `try`, which the outer `except Exception` catches and re-wraps
(line 234).  `CalledProcessError` and `FileNotFoundError` map to the two
`RuntimeError`s of lines 228 and 231. -/
def tryBlock (env : Env) (s : FsState) (trace : List (Option (List String)))
    (evs : List Event) (cmd : List String) : GSResult :=
  match env.run with
  | RunOutcome.success files _stdout _stderr =>
    let sBuilt : FsState := { s with buildDir := some files }
    match moveLoop files env.moveFailsAt 0 sBuilt trace (evs ++ [Event.runBuilder]) with
    | (s1, trace1, evs1, false) =>
      finishWith env (Outcome.ok latest_url) s1 trace1 evs1 (some cmd)
    | (s1, trace1, evs1, true) =>
      finishWith env
        (Outcome.raised (Err.runtimeError
          ("An unexpected error occurred during mkslides build: " ++
            "Failed to move generated files: " ++ move_error_text)))
        s1 trace1 evs1 (some cmd)
  | RunOutcome.calledProcessError _rc _out errtext =>
    finishWith env (Outcome.raised (Err.runtimeError ("mkslides build failed: " ++ errtext)))
      s trace (evs ++ [Event.runBuilder]) (some cmd)
  | RunOutcome.fileNotFound =>
    finishWith env
      (Outcome.raised (Err.runtimeError
        "'mkslides' command not found. Is it installed and in the PATH?"))
      s trace (evs ++ [Event.runBuilder]) (some cmd)
  | RunOutcome.otherError msg =>
    finishWith env
      (Outcome.raised (Err.runtimeError
        ("An unexpected error occurred during mkslides build: " ++ msg)))
      s trace (evs ++ [Event.runBuilder]) (some cmd)

/-- Source lines 182–194: `os.makedirs(latest_output_dir, exist_ok=True)` (the
slot was just cleared, so this makes the slot an empty directory — a new
observable state), `tempfile.mkdtemp()`, command assembly, then the `try`
block.  A failure of either primitive propagates uncaught. -/
def phaseBuild (env : Env) (configArg : List String) (s : FsState)
    (trace : List (Option (List String))) (evs : List Event) : GSResult :=
  if env.makeSlotDirFails then
    { result := Outcome.raised (Err.osError "could not create the output directory"),
      final := s, slotTrace := trace, events := evs ++ [Event.makeSlotDir], command := none }
  else
    let s1 : FsState := { s with slot := some [] }
    let trace1 := trace ++ [some ([] : List String)]
    let evs1 := evs ++ [Event.makeSlotDir]
    if env.makeBuildDirFails then
      { result := Outcome.raised (Err.osError "could not create temporary build directory"),
        final := s1, slotTrace := trace1, events := evs1 ++ [Event.makeTempBuildDir],
        command := none }
    else
      let s2 : FsState := { s1 with buildDir := some [] }
      let cmd := ["mkslides", "build", temp_md_path, "-d", temp_build_path] ++ configArg
      tryBlock env s2 trace1 (evs1 ++ [Event.makeTempBuildDir]) cmd

/-- Source lines 178–181: `if os.path.exists(latest_output_dir): shutil.rmtree(...)`.
Removing the previous slot directory is a new observable state (`none`); a
failure of `rmtree` propagates uncaught. -/
def phaseClearSlot (env : Env) (configArg : List String) (s : FsState)
    (trace : List (Option (List String))) (evs : List Event) : GSResult :=
  match s.slot with
  | some _ =>
    if env.clearSlotFails then
      { result := Outcome.raised (Err.osError "could not remove the previous output directory"),
        final := s, slotTrace := trace, events := evs ++ [Event.clearSlot], command := none }
    else
      phaseBuild env configArg { s with slot := none } (trace ++ [none])
        (evs ++ [Event.clearSlot])
  | none => phaseBuild env configArg s trace evs

/-- Source lines 139–250: the whole `generate_slides` tool.  Validation first
(line 139), then the temporary markdown file (line 144), the optional config
file (lines 150–176), the slot clearing (lines 178–183), the build directory
and command (lines 189–192), and the `try`/`except`/`finally` (lines
196–245).  A primitive failure before the `try` block propagates without the
`finally` running. -/
def generate_slides (req : Request) (env : Env) (init : FsState) : GSResult :=
  if req.markdown_content == "" then
    { result := Outcome.raised (Err.valueError "markdown_content must be provided."),
      final := init, slotTrace := [init.slot], events := [], command := none }
  else if env.createMdFails then
    { result := Outcome.raised (Err.osError "could not create temporary markdown file"),
      final := init, slotTrace := [init.slot], events := [Event.createTempMd],
      command := none }
  else
    let s1 : FsState := { init with mdFile := true }
    if wantConfig req && env.createConfigFails then
      { result := Outcome.raised (Err.osError "could not create temporary config file"),
        final := s1, slotTrace := [init.slot],
        events := [Event.createTempMd, Event.createTempConfig], command := none }
    else
      let s2 : FsState := if wantConfig req then { s1 with configFile := true } else s1
      let evs2 := if wantConfig req then [Event.createTempMd, Event.createTempConfig]
        else [Event.createTempMd]
      let configArg := if wantConfig req then ["-f", temp_config_path] else []
      phaseClearSlot env configArg s2 [init.slot] evs2

/-- Modelled from the spec: the fully-structured configuration object
(`config_json`) of the spec's ConfigComposer.  The source's `generate_slides`
under src/ takes no such parameter (only the three discrete overrides), so
the structured object is modelled from the spec's data model: a mapping with
optional nested sections `slides` and `revealjs`. -/
structure StructuredConfig where
  slides : Option SlidesSection := none
  revealjs : Option (List (String × String)) := none
deriving Repr, DecidableEq

/-- Modelled from the spec: the full ConfigComposer taking a structured
configuration object plus discrete overrides; this variant is absent from the
source under src/.  Precedence per the spec: a section the structured object
defines is taken verbatim and the discrete overrides for that section are
ignored; overrides only fill sections the structured object omits, and an
absent-and-empty section is omitted from the result entirely. -/
def composeConfigFull (config_json : Option StructuredConfig)
    (slides_theme slides_highlight_theme : Option String)
    (revealjs_options : Option (List (String × String))) : Option EffectiveConfig :=
  let structuredSlides := config_json.bind StructuredConfig.slides
  let structuredRev := config_json.bind StructuredConfig.revealjs
  let slidesSection : Option SlidesSection :=
    match structuredSlides with
    | some sec => some sec
    | none =>
      if truthyStr slides_theme || truthyStr slides_highlight_theme then
        some
          { theme := if truthyStr slides_theme then slides_theme else none,
            highlight_theme :=
              if truthyStr slides_highlight_theme then slides_highlight_theme else none }
      else none
  let revSection : Option (List (String × String)) :=
    match structuredRev with
    | some sec => some sec
    | none => if truthyDict revealjs_options then revealjs_options else none
  match slidesSection, revSection with
  | none, none => none
  | s, r => some { slides := s, revealjs := r }

/-- Modelled from the spec: the `output_target` of the spec's tool surface —
either a filesystem directory or a named publish slot.  The source's
`generate_slides` under src/ has no such parameter (it always publishes into
the fixed `latest` slot and returns that URL; a commented-out test passes an
`output_dir` and expects `os.path.abspath(output_dir)` back). -/
inductive OutputTarget where
  | directory (path : String)
  | slot (name : String)
deriving Repr, DecidableEq

/-- Whether a path is absolute (starts with a slash). -/
def isAbsolute (p : String) : Bool :=
  match p.data with
  | [] => false
  | c :: _ => c == '/'

/-- Modelled from the spec: `os.path.abspath` for the directory output target,
absent from the source under src/ — a relative path is resolved against the
process working directory `/app` of the container. -/
def abspath (p : String) : String := if isAbsolute p then p else "/app/" ++ p

/-- The URL form `http://<host>:<port>/<slot>/index.html` of the spec's
tool-surface contract. -/
def slotUrl (host : String) (port : Nat) (slot : String) : String :=
  "http://" ++ host ++ ":" ++ toString port ++ "/" ++ slot ++ "/index.html"

/-- Modelled from the spec: the return value of `generate_slides` for each
output target — the directory case is absent from the source under src/; the
slot case follows the source's line 250 (host `localhost`, port
`server_port`). -/
def resolveOutput : OutputTarget → String
  | OutputTarget.directory p => abspath p
  | OutputTarget.slot name => slotUrl "localhost" server_port name

/-- A `threading.Thread` as far as `start_server_in_thread` observes one. -/
structure ServerThread where
  alive : Bool
deriving Repr, DecidableEq

/-- The module-global `server_thread` (source line 20). -/
structure ServerState where
  server_thread : Option ServerThread := none
deriving Repr, DecidableEq

/-- Exogenous behaviour of one activation attempt: whether
`os.makedirs(output_base_dir)` (line 43, outside the `try`) raises, and
whether `socketserver.TCPServer(("", server_port), handler)` (line 51, inside
the `try`) raises. -/
structure ServerEnv where
  makedirsFails : Bool := false
  bindFails : Bool := false
deriving Repr, DecidableEq

/-- What one call to `start_server_in_thread` does: the global state it leaves
behind, whether an exception propagated to the caller, and whether it started
a new listening server thread. -/
structure StartResult where
  state : ServerState
  raised : Bool
  startedNew : Bool
deriving Repr, DecidableEq

/-- Source lines 42–59: the body of `start_server_in_thread` past the
already-running guard.  `os.makedirs` is outside the `try`, so its failure
propagates; the `TCPServer` creation is inside `try`/`except Exception`, so
its failure is logged and swallowed and the global `server_thread` is not
assigned (the assignment at line 53 comes after the `TCPServer` call). -/
def start_attempt (env : ServerEnv) (s : ServerState) : StartResult :=
  if env.makedirsFails then { state := s, raised := true, startedNew := false }
  else if env.bindFails then { state := s, raised := false, startedNew := false }
  else { state := { server_thread := some { alive := true } }, raised := false,
         startedNew := true }

/-- Source lines 36–59: `start_server_in_thread`.  The guard at line 38
returns early only when the global thread exists and is alive. -/
def start_server_in_thread (env : ServerEnv) (s : ServerState) : StartResult :=
  match s.server_thread with
  | some t =>
    if t.alive then { state := s, raised := false, startedNew := false }
    else start_attempt env s
  | none => start_attempt env s

/-! Helper lemmas about the `finally` block. -/

theorem cleanup_clears (env : Env) (s : FsState)
    (h1 : env.removeMdFails = false) (h2 : env.removeConfigFails = false)
    (h3 : env.removeBuildDirFails = false) :
    (cleanup env s).1.mdFile = false ∧ (cleanup env s).1.configFile = false ∧
      (cleanup env s).1.buildDir = none := by
  rcases s with ⟨slot, md, cf, bd⟩
  cases md <;> cases cf <;> rcases bd with _ | l <;>
    simp [cleanup, cleanupConfig, cleanupBuild, h1, h2, h3]

theorem cleanup_noFail (env : Env) (s : FsState)
    (h1 : env.removeMdFails = false) (h2 : env.removeConfigFails = false)
    (h3 : env.removeBuildDirFails = false) :
    (cleanup env s).2.2 = none := by
  rcases s with ⟨slot, md, cf, bd⟩
  cases md <;> cases cf <;> rcases bd with _ | l <;>
    simp [cleanup, cleanupConfig, cleanupBuild, h1, h2, h3]

theorem cleanup_slot (env : Env) (s : FsState) : (cleanup env s).1.slot = s.slot := by
  rcases s with ⟨slot, md, cf, bd⟩
  cases md <;> cases cf <;> rcases bd with _ | l <;>
    cases h1 : env.removeMdFails <;> cases h2 : env.removeConfigFails <;>
      cases h3 : env.removeBuildDirFails <;>
      simp [cleanup, cleanupConfig, cleanupBuild, h1, h2, h3]

theorem cleanup_events_noConfig (env : Env) (s : FsState) :
    Event.createTempConfig ∉ (cleanup env s).2.1 := by
  rcases s with ⟨slot, md, cf, bd⟩
  cases md <;> cases cf <;> rcases bd with _ | l <;>
    cases h1 : env.removeMdFails <;> cases h2 : env.removeConfigFails <;>
      cases h3 : env.removeBuildDirFails <;>
      simp [cleanup, cleanupConfig, cleanupBuild, h1, h2, h3]

theorem cleanup_mdFail (env : Env) (s : FsState)
    (h : env.removeMdFails = true) (hs : s.mdFile = true) :
    cleanup env s =
      (s, [Event.removeTempMd],
        some (Err.osError "could not remove temporary markdown file")) := by
  simp [cleanup, hs, h]

theorem cleanup_absent (env : Env) (s : FsState)
    (h1 : s.mdFile = false) (h2 : s.configFile = false) (h3 : s.buildDir = none) :
    cleanup env s = (s, [], none) := by
  simp [cleanup, cleanupConfig, cleanupBuild, h1, h2, h3]

theorem finishWith_final (env : Env) (p : Outcome) (s : FsState)
    (tr : List (Option (List String))) (evs : List Event) (cmd : Option (List String)) :
    (finishWith env p s tr evs cmd).final = (cleanup env s).1 := by
  unfold finishWith
  rcases h : cleanup env s with ⟨s2, cevs, oe⟩
  rcases oe with _ | e <;> rfl

theorem finishWith_result (env : Env) (p : Outcome) (s : FsState)
    (tr : List (Option (List String))) (evs : List Event) (cmd : Option (List String))
    (h1 : env.removeMdFails = false) (h2 : env.removeConfigFails = false)
    (h3 : env.removeBuildDirFails = false) :
    (finishWith env p s tr evs cmd).result = p := by
  unfold finishWith
  have hn := cleanup_noFail env s h1 h2 h3
  rcases h : cleanup env s with ⟨s2, cevs, oe⟩
  rw [h] at hn
  simp only at hn
  subst hn
  rfl

theorem finishWith_mdFail (env : Env) (p : Outcome) (s : FsState)
    (tr : List (Option (List String))) (evs : List Event) (cmd : Option (List String))
    (h : env.removeMdFails = true) (hs : s.mdFile = true) :
    (finishWith env p s tr evs cmd).result =
      Outcome.raised (Err.osError "could not remove temporary markdown file") := by
  unfold finishWith
  rw [cleanup_mdFail env s h hs]

theorem finishWith_command (env : Env) (p : Outcome) (s : FsState)
    (tr : List (Option (List String))) (evs : List Event) (cmd : Option (List String)) :
    (finishWith env p s tr evs cmd).command = cmd := by
  unfold finishWith
  rcases h : cleanup env s with ⟨s2, cevs, oe⟩
  rcases oe with _ | e <;> rfl

theorem finishWith_events_noConfig (env : Env) (p : Outcome) (s : FsState)
    (tr : List (Option (List String))) (evs : List Event) (cmd : Option (List String))
    (h : Event.createTempConfig ∉ evs) :
    Event.createTempConfig ∉ (finishWith env p s tr evs cmd).events := by
  unfold finishWith
  have hc := cleanup_events_noConfig env s
  rcases hcl : cleanup env s with ⟨s2, cevs, oe⟩
  rw [hcl] at hc
  simp only at hc
  rcases oe with _ | e <;>
    · show Event.createTempConfig ∉ evs ++ cevs
      intro hmem
      rcases List.mem_append.mp hmem with hin | hin
      exacts [h hin, hc hin]

/-! Helper lemmas about the move loop. -/

theorem moveLoop_mdFile (items : List String) : ∀ (failAt : Option Nat) (idx : Nat)
    (s : FsState) (tr : List (Option (List String))) (evs : List Event),
    (moveLoop items failAt idx s tr evs).1.mdFile = s.mdFile := by
  induction items with
  | nil => intro failAt idx s tr evs; rfl
  | cons a rest ih =>
    intro failAt idx s tr evs
    simp only [moveLoop]
    by_cases h : failAt = some idx
    · simp [h]
    · simp only [if_neg h]
      rw [ih]

theorem moveLoop_configFile (items : List String) : ∀ (failAt : Option Nat) (idx : Nat)
    (s : FsState) (tr : List (Option (List String))) (evs : List Event),
    (moveLoop items failAt idx s tr evs).1.configFile = s.configFile := by
  induction items with
  | nil => intro failAt idx s tr evs; rfl
  | cons a rest ih =>
    intro failAt idx s tr evs
    simp only [moveLoop]
    by_cases h : failAt = some idx
    · simp [h]
    · simp only [if_neg h]
      rw [ih]

theorem moveLoop_none (items : List String) : ∀ (idx : Nat) (s : FsState)
    (tr : List (Option (List String))) (evs : List Event) (l : List String),
    s.slot = some l →
    (moveLoop items none idx s tr evs).1.slot = some (l ++ items) ∧
      (moveLoop items none idx s tr evs).2.2.2 = false := by
  induction items with
  | nil => intro idx s tr evs l hl; simp [moveLoop, hl]
  | cons a rest ih =>
    intro idx s tr evs l hl
    simp only [moveLoop]
    rw [if_neg (by simp : ¬ (none : Option Nat) = some idx)]
    have h1 := ih (idx + 1)
      { s with slot := some (s.slot.getD [] ++ [a]),
               buildDir := s.buildDir.map (fun xs => xs.erase a) }
      (tr ++ [some (s.slot.getD [] ++ [a])]) (evs ++ [Event.moveItem a])
      (l ++ [a]) (by simp [hl])
    simpa [hl] using h1

theorem moveLoop_events_noConfig (items : List String) : ∀ (failAt : Option Nat)
    (idx : Nat) (s : FsState) (tr : List (Option (List String))) (evs : List Event),
    Event.createTempConfig ∉ evs →
    Event.createTempConfig ∉ (moveLoop items failAt idx s tr evs).2.2.1 := by
  induction items with
  | nil => intro failAt idx s tr evs h; exact h
  | cons a rest ih =>
    intro failAt idx s tr evs h
    simp only [moveLoop]
    by_cases hf : failAt = some idx
    · simpa [hf] using h
    · simp only [if_neg hf]
      exact ih failAt (idx + 1) _ _ _ (by simp [h])

/-! Helper lemmas about the try block and the two phases before it. -/

theorem tryBlock_final_clean (env : Env) (s : FsState)
    (tr : List (Option (List String))) (evs : List Event) (cmd : List String)
    (h1 : env.removeMdFails = false) (h2 : env.removeConfigFails = false)
    (h3 : env.removeBuildDirFails = false) :
    (tryBlock env s tr evs cmd).final.mdFile = false ∧
      (tryBlock env s tr evs cmd).final.configFile = false ∧
      (tryBlock env s tr evs cmd).final.buildDir = none := by
  cases hrun : env.run with
  | success files o e =>
    simp only [tryBlock, hrun]
    rcases hm : moveLoop files env.moveFailsAt 0 { s with buildDir := some files } tr
      (evs ++ [Event.runBuilder]) with ⟨s1, tr1, evs1, b⟩
    cases b <;> simp only [finishWith_final] <;> exact cleanup_clears env _ h1 h2 h3
  | calledProcessError rc o e =>
    simp only [tryBlock, hrun, finishWith_final]
    exact cleanup_clears env _ h1 h2 h3
  | fileNotFound =>
    simp only [tryBlock, hrun, finishWith_final]
    exact cleanup_clears env _ h1 h2 h3
  | otherError msg =>
    simp only [tryBlock, hrun, finishWith_final]
    exact cleanup_clears env _ h1 h2 h3

theorem tryBlock_mdFail (env : Env) (s : FsState)
    (tr : List (Option (List String))) (evs : List Event) (cmd : List String)
    (h : env.removeMdFails = true) (hs : s.mdFile = true) :
    (tryBlock env s tr evs cmd).result =
      Outcome.raised (Err.osError "could not remove temporary markdown file") := by
  cases hrun : env.run with
  | success files o e =>
    simp only [tryBlock, hrun]
    rcases hm : moveLoop files env.moveFailsAt 0 { s with buildDir := some files } tr
      (evs ++ [Event.runBuilder]) with ⟨s1, tr1, evs1, b⟩
    have hmd : s1.mdFile = true := by
      have := moveLoop_mdFile files env.moveFailsAt 0 { s with buildDir := some files } tr
        (evs ++ [Event.runBuilder])
      rw [hm] at this
      simpa [hs] using this
    cases b <;> exact finishWith_mdFail env _ _ _ _ _ h hmd
  | calledProcessError rc o e =>
    simp only [tryBlock, hrun]
    exact finishWith_mdFail env _ _ _ _ _ h hs
  | fileNotFound =>
    simp only [tryBlock, hrun]
    exact finishWith_mdFail env _ _ _ _ _ h hs
  | otherError msg =>
    simp only [tryBlock, hrun]
    exact finishWith_mdFail env _ _ _ _ _ h hs

theorem tryBlock_command (env : Env) (s : FsState)
    (tr : List (Option (List String))) (evs : List Event) (cmd : List String) :
    (tryBlock env s tr evs cmd).command = some cmd := by
  cases hrun : env.run with
  | success files o e =>
    simp only [tryBlock, hrun]
    rcases hm : moveLoop files env.moveFailsAt 0 { s with buildDir := some files } tr
      (evs ++ [Event.runBuilder]) with ⟨s1, tr1, evs1, b⟩
    cases b <;> exact finishWith_command env _ _ _ _ _
  | calledProcessError rc o e =>
    simp only [tryBlock, hrun]
    exact finishWith_command env _ _ _ _ _
  | fileNotFound =>
    simp only [tryBlock, hrun]
    exact finishWith_command env _ _ _ _ _
  | otherError msg =>
    simp only [tryBlock, hrun]
    exact finishWith_command env _ _ _ _ _

theorem tryBlock_events_noConfig (env : Env) (s : FsState)
    (tr : List (Option (List String))) (evs : List Event) (cmd : List String)
    (h : Event.createTempConfig ∉ evs) :
    Event.createTempConfig ∉ (tryBlock env s tr evs cmd).events := by
  cases hrun : env.run with
  | success files o e =>
    simp only [tryBlock, hrun]
    have hml := moveLoop_events_noConfig files env.moveFailsAt 0
      { s with buildDir := some files } tr (evs ++ [Event.runBuilder]) (by simp [h])
    rcases hm : moveLoop files env.moveFailsAt 0 { s with buildDir := some files } tr
      (evs ++ [Event.runBuilder]) with ⟨s1, tr1, evs1, b⟩
    rw [hm] at hml
    simp only at hml
    cases b <;> exact finishWith_events_noConfig env _ _ _ _ _ hml
  | calledProcessError rc o e =>
    simp only [tryBlock, hrun]
    exact finishWith_events_noConfig env _ _ _ _ _ (by simp [h])
  | fileNotFound =>
    simp only [tryBlock, hrun]
    exact finishWith_events_noConfig env _ _ _ _ _ (by simp [h])
  | otherError msg =>
    simp only [tryBlock, hrun]
    exact finishWith_events_noConfig env _ _ _ _ _ (by simp [h])

theorem tryBlock_success (env : Env) (s : FsState)
    (tr : List (Option (List String))) (evs : List Event) (cmd : List String)
    (files : List String) (o e : String)
    (hrun : env.run = RunOutcome.success files o e) (hmf : env.moveFailsAt = none)
    (hslot : s.slot = some [])
    (h1 : env.removeMdFails = false) (h2 : env.removeConfigFails = false)
    (h3 : env.removeBuildDirFails = false) :
    (tryBlock env s tr evs cmd).result = Outcome.ok latest_url ∧
      (tryBlock env s tr evs cmd).final.slot = some files := by
  simp only [tryBlock, hrun, hmf]
  have hml := moveLoop_none files 0 { s with buildDir := some files } tr
    (evs ++ [Event.runBuilder]) [] (by simpa using hslot)
  rcases hm : moveLoop files none 0 { s with buildDir := some files } tr
    (evs ++ [Event.runBuilder]) with ⟨s1, tr1, evs1, b⟩
  rw [hm] at hml
  simp only at hml
  rcases hml with ⟨hs1, hb⟩
  subst hb
  refine ⟨finishWith_result env _ _ _ _ _ h1 h2 h3, ?_⟩
  rw [finishWith_final, cleanup_slot]
  simpa using hs1

theorem phaseBuild_eq (env : Env) (configArg : List String) (s : FsState)
    (tr : List (Option (List String))) (evs : List Event)
    (h4 : env.makeSlotDirFails = false) (h5 : env.makeBuildDirFails = false) :
    phaseBuild env configArg s tr evs =
      tryBlock env { s with slot := some [], buildDir := some [] }
        (tr ++ [some ([] : List String)])
        (evs ++ [Event.makeSlotDir] ++ [Event.makeTempBuildDir])
        (["mkslides", "build", temp_md_path, "-d", temp_build_path] ++ configArg) := by
  simp [phaseBuild, h4, h5]

theorem phaseBuild_events_noConfig (env : Env) (configArg : List String) (s : FsState)
    (tr : List (Option (List String))) (evs : List Event)
    (h : Event.createTempConfig ∉ evs) :
    Event.createTempConfig ∉ (phaseBuild env configArg s tr evs).events := by
  cases h4 : env.makeSlotDirFails with
  | true => simp [phaseBuild, h4, h]
  | false =>
    cases h5 : env.makeBuildDirFails with
    | true => simp [phaseBuild, h4, h5, h]
    | false =>
      rw [phaseBuild_eq env configArg s tr evs h4 h5]
      exact tryBlock_events_noConfig env _ _ _ _ (by simp [h])

theorem phaseBuild_command (env : Env) (configArg : List String) (s : FsState)
    (tr : List (Option (List String))) (evs : List Event) :
    (phaseBuild env configArg s tr evs).command = none ∨
      (phaseBuild env configArg s tr evs).command =
        some (["mkslides", "build", temp_md_path, "-d", temp_build_path] ++ configArg) := by
  cases h4 : env.makeSlotDirFails with
  | true => left; simp [phaseBuild, h4]
  | false =>
    cases h5 : env.makeBuildDirFails with
    | true => left; simp [phaseBuild, h4, h5]
    | false =>
      right
      rw [phaseBuild_eq env configArg s tr evs h4 h5]
      exact tryBlock_command env _ _ _ _

theorem phaseClearSlot_eq_none (env : Env) (configArg : List String) (s : FsState)
    (tr : List (Option (List String))) (evs : List Event) (hs : s.slot = none) :
    phaseClearSlot env configArg s tr evs = phaseBuild env configArg s tr evs := by
  simp [phaseClearSlot, hs]

theorem phaseClearSlot_eq_some (env : Env) (configArg : List String) (s : FsState)
    (tr : List (Option (List String))) (evs : List Event) (l : List String)
    (hs : s.slot = some l) (h3 : env.clearSlotFails = false) :
    phaseClearSlot env configArg s tr evs =
      phaseBuild env configArg { s with slot := none } (tr ++ [none])
        (evs ++ [Event.clearSlot]) := by
  simp [phaseClearSlot, hs, h3]

theorem phaseClearSlot_events_noConfig (env : Env) (configArg : List String) (s : FsState)
    (tr : List (Option (List String))) (evs : List Event)
    (h : Event.createTempConfig ∉ evs) :
    Event.createTempConfig ∉ (phaseClearSlot env configArg s tr evs).events := by
  rcases hs : s.slot with _ | l
  · rw [phaseClearSlot_eq_none env configArg s tr evs hs]
    exact phaseBuild_events_noConfig env _ _ _ _ h
  · cases h3 : env.clearSlotFails with
    | true => simp [phaseClearSlot, hs, h3, h]
    | false =>
      rw [phaseClearSlot_eq_some env configArg s tr evs l hs h3]
      exact phaseBuild_events_noConfig env _ _ _ _ (by simp [h])

theorem phaseClearSlot_command (env : Env) (configArg : List String) (s : FsState)
    (tr : List (Option (List String))) (evs : List Event) :
    (phaseClearSlot env configArg s tr evs).command = none ∨
      (phaseClearSlot env configArg s tr evs).command =
        some (["mkslides", "build", temp_md_path, "-d", temp_build_path] ++ configArg) := by
  rcases hs : s.slot with _ | l
  · rw [phaseClearSlot_eq_none env configArg s tr evs hs]
    exact phaseBuild_command env _ _ _ _
  · cases h3 : env.clearSlotFails with
    | true => left; simp [phaseClearSlot, hs, h3]
    | false =>
      rw [phaseClearSlot_eq_some env configArg s tr evs l hs h3]
      exact phaseBuild_command env _ _ _ _

theorem tryBlock_cpe (env : Env) (s : FsState)
    (tr : List (Option (List String))) (evs : List Event) (cmd : List String)
    (rc : Nat) (o e : String)
    (hrun : env.run = RunOutcome.calledProcessError rc o e)
    (h6 : env.removeMdFails = false) (h7 : env.removeConfigFails = false)
    (h8 : env.removeBuildDirFails = false) :
    (tryBlock env s tr evs cmd).result =
      Outcome.raised (Err.runtimeError ("mkslides build failed: " ++ e)) := by
  simp only [tryBlock, hrun]
  exact finishWith_result env _ _ _ _ _ h6 h7 h8

theorem tryBlock_fnf (env : Env) (s : FsState)
    (tr : List (Option (List String))) (evs : List Event) (cmd : List String)
    (hrun : env.run = RunOutcome.fileNotFound)
    (h6 : env.removeMdFails = false) (h7 : env.removeConfigFails = false)
    (h8 : env.removeBuildDirFails = false) :
    (tryBlock env s tr evs cmd).result =
      Outcome.raised (Err.runtimeError
        "'mkslides' command not found. Is it installed and in the PATH?") := by
  simp only [tryBlock, hrun]
  exact finishWith_result env _ _ _ _ _ h6 h7 h8

/-- When validation passes and every primitive before the `try` block
succeeds, `generate_slides` is the `try` block applied to a workspace state
whose markdown temporary exists, whose slot was just emptied, and whose build
directory was just created. -/
theorem generate_slides_eq_tryBlock (req : Request) (env : Env) (init : FsState)
    (hb : (req.markdown_content == "") = false)
    (h1 : env.createMdFails = false) (h2 : env.createConfigFails = false)
    (h3 : env.clearSlotFails = false) (h4 : env.makeSlotDirFails = false)
    (h5 : env.makeBuildDirFails = false) :
    ∃ (s : FsState) (tr : List (Option (List String))) (evs : List Event),
      generate_slides req env init =
        tryBlock env s tr evs
          (["mkslides", "build", temp_md_path, "-d", temp_build_path] ++
            (if wantConfig req then ["-f", temp_config_path] else [])) ∧
      s.mdFile = true ∧ s.slot = some [] ∧ s.buildDir = some [] := by
  cases hw : wantConfig req with
  | false =>
    have e1 : generate_slides req env init =
        phaseClearSlot env [] { init with mdFile := true } [init.slot]
          [Event.createTempMd] := by
      simp [generate_slides, hb, h1, h2, hw]
    rcases hs : init.slot with _ | l
    · refine ⟨⟨some [], true, init.configFile, some []⟩,
        [init.slot] ++ [some ([] : List String)],
        [Event.createTempMd] ++ [Event.makeSlotDir] ++ [Event.makeTempBuildDir],
        ?_, rfl, rfl, rfl⟩
      rw [e1, phaseClearSlot_eq_none env [] { init with mdFile := true } [init.slot]
        [Event.createTempMd] (by simpa using hs),
        phaseBuild_eq env _ _ _ _ h4 h5]
      rfl
    · refine ⟨⟨some [], true, init.configFile, some []⟩,
        ([init.slot] ++ [none]) ++ [some ([] : List String)],
        ([Event.createTempMd] ++ [Event.clearSlot]) ++ [Event.makeSlotDir] ++
          [Event.makeTempBuildDir],
        ?_, rfl, rfl, rfl⟩
      rw [e1, phaseClearSlot_eq_some env [] { init with mdFile := true } [init.slot]
        [Event.createTempMd] l (by simpa using hs) h3,
        phaseBuild_eq env _ _ _ _ h4 h5]
      rfl
  | true =>
    have e1 : generate_slides req env init =
        phaseClearSlot env ["-f", temp_config_path]
          { init with mdFile := true, configFile := true } [init.slot]
          [Event.createTempMd, Event.createTempConfig] := by
      simp [generate_slides, hb, h1, h2, hw]
    rcases hs : init.slot with _ | l
    · refine ⟨⟨some [], true, true, some []⟩,
        [init.slot] ++ [some ([] : List String)],
        [Event.createTempMd, Event.createTempConfig] ++ [Event.makeSlotDir] ++
          [Event.makeTempBuildDir],
        ?_, rfl, rfl, rfl⟩
      rw [e1, phaseClearSlot_eq_none env ["-f", temp_config_path]
        { init with mdFile := true, configFile := true } [init.slot]
        [Event.createTempMd, Event.createTempConfig] (by simpa using hs),
        phaseBuild_eq env _ _ _ _ h4 h5]
      rfl
    · refine ⟨⟨some [], true, true, some []⟩,
        ([init.slot] ++ [none]) ++ [some ([] : List String)],
        ([Event.createTempMd, Event.createTempConfig] ++ [Event.clearSlot]) ++
          [Event.makeSlotDir] ++ [Event.makeTempBuildDir],
        ?_, rfl, rfl, rfl⟩
      rw [e1, phaseClearSlot_eq_some env ["-f", temp_config_path]
        { init with mdFile := true, configFile := true } [init.slot]
        [Event.createTempMd, Event.createTempConfig] l (by simpa using hs) h3,
        phaseBuild_eq env _ _ _ _ h4 h5]
      rfl

/-! The claims. -/

/-- C1: the publish step is not a single atomic directory swap.  At this
concrete successful build — previous build `["index.html"]`, new build
`["index.html", "assets"]`, no primitive failure — a concurrent reader can
observe the slot absent (`none`, after the `shutil.rmtree` of line 180) and
as an empty directory (`some []`, after the `os.makedirs` of line 182),
neither of which is the previous or the new complete build: the code deletes
the slot before the build even runs and then repopulates it one entry at a
time (lines 211–215). -/
theorem C1_publish_not_atomic :
    (generate_slides { markdown_content := "# Title" }
      { run := RunOutcome.success ["index.html", "assets"] "" "" }
      { slot := some ["index.html"] }).result = Outcome.ok latest_url ∧
    (generate_slides { markdown_content := "# Title" }
      { run := RunOutcome.success ["index.html", "assets"] "" "" }
      { slot := some ["index.html"] }).slotTrace =
        [some ["index.html"], none, some [], some ["index.html"],
          some ["index.html", "assets"]] ∧
    (none : Option (List String)) ≠ some ["index.html"] ∧
    (none : Option (List String)) ≠ some ["index.html", "assets"] ∧
    (some [] : Option (List String)) ≠ some ["index.html"] ∧
    (some [] : Option (List String)) ≠ some ["index.html", "assets"] := by
  exact ⟨rfl, rfl, by decide, by decide, by decide, by decide⟩

/-- C2: a build failure after validation does not leave the slot's prior
contents untouched.  At this concrete attempt — previous build
`["index.html"]`, builder exits non-zero with stderr "unknown option
  '--foo'" — the RuntimeError carries the stderr text, but the slot's prior
contents were already destroyed before the builder ran: the call ends with
the slot as an empty directory, not the previous build. -/
theorem C2_failure_destroys_prior_slot :
    (generate_slides { markdown_content := "# Title\n\n---\n\n## Slide 2" }
      { run := RunOutcome.calledProcessError 2 "" "unknown option '--foo'" }
      { slot := some ["index.html"] }).result =
        Outcome.raised
          (Err.runtimeError "mkslides build failed: unknown option '--foo'") ∧
    (generate_slides { markdown_content := "# Title\n\n---\n\n## Slide 2" }
      { run := RunOutcome.calledProcessError 2 "" "unknown option '--foo'" }
      { slot := some ["index.html"] }).final.slot = some [] ∧
    (some [] : Option (List String)) ≠ some ["index.html"] := by
  exact ⟨rfl, rfl, by decide⟩

/-- C3: an empty `markdown_content` fails validation with the ValueError of
line 141 before any filesystem or process side effect: no event is performed,
the filesystem state is untouched, no external command is assembled, and a
reader only ever sees the initial slot state. -/
theorem C3_empty_markdown_validation (req : Request) (env : Env) (init : FsState)
    (h : req.markdown_content = "") :
    (generate_slides req env init).result =
      Outcome.raised (Err.valueError "markdown_content must be provided.") ∧
    (generate_slides req env init).events = [] ∧
    (generate_slides req env init).final = init ∧
    (generate_slides req env init).slotTrace = [init.slot] ∧
    (generate_slides req env init).command = none := by
  have hb : (req.markdown_content == "") = true := by simp [h]
  simp [generate_slides, hb]

/-- Witness for C3: the concrete empty request. -/
theorem C3_empty_markdown_validation_witness :
    (generate_slides { markdown_content := "" } { run := RunOutcome.fileNotFound }
      { }).result =
      Outcome.raised (Err.valueError "markdown_content must be provided.") ∧
    (generate_slides { markdown_content := "" } { run := RunOutcome.fileNotFound }
      { }).events = [] ∧
    (generate_slides { markdown_content := "" } { run := RunOutcome.fileNotFound }
      { }).final = { } ∧
    (generate_slides { markdown_content := "" } { run := RunOutcome.fileNotFound }
      { }).slotTrace = [({ } : FsState).slot] ∧
    (generate_slides { markdown_content := "" } { run := RunOutcome.fileNotFound }
      { }).command = none :=
  C3_empty_markdown_validation { markdown_content := "" }
    { run := RunOutcome.fileNotFound } { } rfl

/-- C4 as stated fails on the code: cleanup is guaranteed only from the `try`
block on.  At this concrete attempt, validation passes, the temporary
markdown file is created, and then `tempfile.mkdtemp()` (line 189, before the
`try`) raises: the exception propagates, the `finally` never runs, and the
temporary markdown file remains on the filesystem. -/
theorem C4_setup_failure_leaks_md_file :
    (generate_slides { markdown_content := "# Title" }
      { run := RunOutcome.fileNotFound, makeBuildDirFails := true } { }).result =
      Outcome.raised (Err.osError "could not create temporary build directory") ∧
    (generate_slides { markdown_content := "# Title" }
      { run := RunOutcome.fileNotFound, makeBuildDirFails := true }
      { }).final.mdFile = true := by
  exact ⟨rfl, rfl⟩

/-- C4 amended: for every build attempt that reaches the external-tool
invocation (validation passed and every workspace-setup primitive succeeded),
whatever the builder outcome — success, tool failure, tool missing,
unexpected error, and whether or not the move step fails — the `finally`
block removes the temporary markdown file, the temporary config file and the
temporary build directory, provided the removals themselves succeed. -/
theorem C4_amended_cleanup_after_invocation (req : Request) (env : Env) (init : FsState)
    (hmd : req.markdown_content ≠ "")
    (h1 : env.createMdFails = false) (h2 : env.createConfigFails = false)
    (h3 : env.clearSlotFails = false) (h4 : env.makeSlotDirFails = false)
    (h5 : env.makeBuildDirFails = false)
    (h6 : env.removeMdFails = false) (h7 : env.removeConfigFails = false)
    (h8 : env.removeBuildDirFails = false) :
    (generate_slides req env init).final.mdFile = false ∧
    (generate_slides req env init).final.configFile = false ∧
    (generate_slides req env init).final.buildDir = none := by
  have hb : (req.markdown_content == "") = false := beq_eq_false_iff_ne.mpr hmd
  obtain ⟨s, tr, evs, heq, -, -, -⟩ :=
    generate_slides_eq_tryBlock req env init hb h1 h2 h3 h4 h5
  rw [heq]
  exact tryBlock_final_clean env s tr evs _ h6 h7 h8

/-- Witness for the amended C4: a concrete failed build whose temporaries are
all gone afterwards. -/
theorem C4_amended_cleanup_after_invocation_witness :
    (generate_slides { markdown_content := "# Title", slides_theme := some "black" }
      { run := RunOutcome.calledProcessError 1 "" "boom" } { }).final.mdFile = false ∧
    (generate_slides { markdown_content := "# Title", slides_theme := some "black" }
      { run := RunOutcome.calledProcessError 1 "" "boom" } { }).final.configFile = false ∧
    (generate_slides { markdown_content := "# Title", slides_theme := some "black" }
      { run := RunOutcome.calledProcessError 1 "" "boom" } { }).final.buildDir = none :=
  C4_amended_cleanup_after_invocation
    { markdown_content := "# Title", slides_theme := some "black" }
    { run := RunOutcome.calledProcessError 1 "" "boom" } { }
    (by decide) rfl rfl rfl rfl rfl rfl rfl rfl

/-- C5 as stated fails on the code: the `finally` block (lines 235–245) has no
exception handling of its own.  At this concrete attempt the builder fails
with stderr "boom", then removing the temporary markdown file raises: the
cleanup OSError propagates to the caller in place of the build's
RuntimeError. -/
theorem C5_cleanup_error_masks_build_error :
    (generate_slides { markdown_content := "# Title" }
      { run := RunOutcome.calledProcessError 1 "" "boom", removeMdFails := true }
      { }).result =
      Outcome.raised (Err.osError "could not remove temporary markdown file") ∧
    (generate_slides { markdown_content := "# Title" }
      { run := RunOutcome.calledProcessError 1 "" "boom", removeMdFails := true }
      { }).result ≠
      Outcome.raised (Err.runtimeError "mkslides build failed: boom") := by
  exact ⟨rfl, by decide⟩

/-- C5 amended: cleanup tolerates absence — an artifact that is already gone
is skipped by its `os.path.exists` guard without any error — but a failure of
a removal itself is not swallowed: on every attempt that reached the builder,
if removing the temporary markdown file raises, that OSError is what the
caller receives, replacing the build's own outcome. -/
theorem C5_amended_cleanup_not_swallowed (req : Request) (env : Env) (init : FsState)
    (hmd : req.markdown_content ≠ "")
    (h1 : env.createMdFails = false) (h2 : env.createConfigFails = false)
    (h3 : env.clearSlotFails = false) (h4 : env.makeSlotDirFails = false)
    (h5 : env.makeBuildDirFails = false)
    (hrm : env.removeMdFails = true) :
    (generate_slides req env init).result =
      Outcome.raised (Err.osError "could not remove temporary markdown file") ∧
    (∀ (env2 : Env) (s : FsState), s.mdFile = false → s.configFile = false →
      s.buildDir = none → cleanup env2 s = (s, [], none)) := by
  have hb : (req.markdown_content == "") = false := beq_eq_false_iff_ne.mpr hmd
  obtain ⟨s, tr, evs, heq, hsmd, -, -⟩ :=
    generate_slides_eq_tryBlock req env init hb h1 h2 h3 h4 h5
  refine ⟨?_, fun env2 s2 a b c => cleanup_absent env2 s2 a b c⟩
  rw [heq]
  exact tryBlock_mdFail env s tr evs _ hrm hsmd

/-- Witness for the amended C5: a concrete successful build whose markdown
removal fails, surfacing the cleanup OSError. -/
theorem C5_amended_cleanup_not_swallowed_witness :
    (generate_slides { markdown_content := "# Title" }
      { run := RunOutcome.success ["index.html"] "" "", removeMdFails := true }
      { }).result =
      Outcome.raised (Err.osError "could not remove temporary markdown file") ∧
    (∀ (env2 : Env) (s : FsState), s.mdFile = false → s.configFile = false →
      s.buildDir = none → cleanup env2 s = (s, [], none)) :=
  C5_amended_cleanup_not_swallowed { markdown_content := "# Title" }
    { run := RunOutcome.success ["index.html"] "" "", removeMdFails := true } { }
    (by decide) rfl rfl rfl rfl rfl rfl

/-- C6 (spec-modelled: the structured `config_json` parameter is absent from
the source under src/): in the full ConfigComposer, a top-level section the
structured object defines — `slides` or the presentation-options section —
is taken verbatim into the EffectiveConfig and the discrete overrides for
that section are ignored; in particular a structured `slides` section wins
over a discrete theme override wholesale. -/
theorem C6_structured_section_precedence (cfg : StructuredConfig)
    (theme hl : Option String) (opts : Option (List (String × String))) :
    (∀ sec : SlidesSection, cfg.slides = some sec →
      (composeConfigFull (some cfg) theme hl opts).map EffectiveConfig.slides =
        some (some sec)) ∧
    (∀ rsec : List (String × String), cfg.revealjs = some rsec →
      (composeConfigFull (some cfg) theme hl opts).map EffectiveConfig.revealjs =
        some (some rsec)) := by
  constructor
  · intro sec hsec
    rcases hrev : cfg.revealjs with _ | r <;>
      simp [composeConfigFull, hsec, hrev]
  · intro rsec hrev
    rcases hsl : cfg.slides with _ | sec <;>
      simp [composeConfigFull, hsl, hrev]

/-- Witness for C6: a structured config setting `slides.theme` to "white"
beats the discrete override "black". -/
theorem C6_structured_section_precedence_witness :
    (composeConfigFull
        (some { slides := some { theme := some "white" } })
        (some "black") none none).map EffectiveConfig.slides =
      some (some { theme := some "white" }) :=
  (C6_structured_section_precedence { slides := some { theme := some "white" } }
    (some "black") none none).1 { theme := some "white" } rfl

/-- C7: when the output target is the named publish slot (the only target the
source supports), a successful build returns exactly the URL
`http://<host>:<port>/<slot>/index.html` with host `localhost`, the
configured port and slot `latest`, and the published slot holds exactly the
builder's output files (so it contains `index.html` whenever the builder
emitted one); the directory output target is absent from src/ and is
modelled from the spec: it resolves to an absolute filesystem path. -/
theorem C7_return_forms (req : Request) (env : Env) (init : FsState)
    (files : List String) (o e : String)
    (hmd : req.markdown_content ≠ "")
    (h1 : env.createMdFails = false) (h2 : env.createConfigFails = false)
    (h3 : env.clearSlotFails = false) (h4 : env.makeSlotDirFails = false)
    (h5 : env.makeBuildDirFails = false)
    (h6 : env.removeMdFails = false) (h7 : env.removeConfigFails = false)
    (h8 : env.removeBuildDirFails = false)
    (hrun : env.run = RunOutcome.success files o e) (hmf : env.moveFailsAt = none) :
    (generate_slides req env init).result =
      Outcome.ok (slotUrl "localhost" server_port "latest") ∧
    (generate_slides req env init).final.slot = some files ∧
    (∀ p, isAbsolute (resolveOutput (OutputTarget.directory p)) = true) ∧
    (∀ name, resolveOutput (OutputTarget.slot name) =
      slotUrl "localhost" server_port name) := by
  have hb : (req.markdown_content == "") = false := beq_eq_false_iff_ne.mpr hmd
  obtain ⟨s, tr, evs, heq, -, hslot, -⟩ :=
    generate_slides_eq_tryBlock req env init hb h1 h2 h3 h4 h5
  have hres := tryBlock_success env s tr evs
    (["mkslides", "build", temp_md_path, "-d", temp_build_path] ++
      if wantConfig req then ["-f", temp_config_path] else [])
    files o e hrun hmf hslot h6 h7 h8
  refine ⟨?_, ?_, ?_, fun name => rfl⟩
  · rw [heq, hres.1]
    decide
  · rw [heq]
    exact hres.2
  · intro p
    simp only [resolveOutput, abspath]
    by_cases hp : isAbsolute p
    · simp [hp]
    · rw [if_neg hp]
      have hd : ("/app/" ++ p).data = '/' :: 'a' :: 'p' :: 'p' :: '/' :: p.data := by
        rw [String.data_append]
        rfl
      simp [isAbsolute, hd]

/-- Witness for C7: a concrete successful build publishing `index.html`, and
a concrete relative directory target resolved to an absolute path. -/
theorem C7_return_forms_witness :
    (generate_slides { markdown_content := "# Title\n\n---\n\n## Slide 2" }
      { run := RunOutcome.success ["index.html"] "" "" } { }).result =
      Outcome.ok (slotUrl "localhost" server_port "latest") ∧
    (generate_slides { markdown_content := "# Title\n\n---\n\n## Slide 2" }
      { run := RunOutcome.success ["index.html"] "" "" } { }).final.slot =
      some ["index.html"] ∧
    isAbsolute (resolveOutput (OutputTarget.directory "mkslides_output")) = true ∧
    resolveOutput (OutputTarget.slot "latest") =
      slotUrl "localhost" server_port "latest" := by
  have h := C7_return_forms { markdown_content := "# Title\n\n---\n\n## Slide 2" }
    { run := RunOutcome.success ["index.html"] "" "" } { } ["index.html"] "" ""
    (by decide) rfl rfl rfl rfl rfl rfl rfl rfl rfl rfl
  exact ⟨h.1, h.2.1, h.2.2.1 "mkslides_output", h.2.2.2 "latest"⟩

/-- C8: a builder failure raises the RuntimeError of line 228 carrying the
captured stderr, the builder being missing raises the distinct RuntimeError
of line 231, and no stderr text can make the first message collide with the
second, so the caller can always tell the two outcomes apart. -/
theorem C8_distinct_failure_modes (req : Request) (init : FsState)
    (rc : Nat) (out errtext : String) (hmd : req.markdown_content ≠ "") :
    (generate_slides req { run := RunOutcome.calledProcessError rc out errtext }
      init).result =
      Outcome.raised (Err.runtimeError ("mkslides build failed: " ++ errtext)) ∧
    (generate_slides req { run := RunOutcome.fileNotFound } init).result =
      Outcome.raised (Err.runtimeError
        "'mkslides' command not found. Is it installed and in the PATH?") ∧
    (∀ e : String, "mkslides build failed: " ++ e ≠
      "'mkslides' command not found. Is it installed and in the PATH?") := by
  have hb : (req.markdown_content == "") = false := beq_eq_false_iff_ne.mpr hmd
  refine ⟨?_, ?_, ?_⟩
  · obtain ⟨s, tr, evs, heq, -, -, -⟩ :=
      generate_slides_eq_tryBlock req { run := RunOutcome.calledProcessError rc out errtext }
        init hb rfl rfl rfl rfl rfl
    rw [heq]
    exact tryBlock_cpe _ s tr evs _ rc out errtext rfl rfl rfl rfl
  · obtain ⟨s, tr, evs, heq, -, -, -⟩ :=
      generate_slides_eq_tryBlock req { run := RunOutcome.fileNotFound }
        init hb rfl rfl rfl rfl rfl
    rw [heq]
    exact tryBlock_fnf _ s tr evs _ rfl rfl rfl rfl
  · intro e h
    have h1 : ("mkslides build failed: " ++ e).data.head? = some 'm' := by
      rw [String.data_append]
      rfl
    rw [h] at h1
    exact absurd h1 (by decide)

/-- Witness for C8 at a concrete request and concrete diagnostic text. -/
theorem C8_distinct_failure_modes_witness :
    (generate_slides { markdown_content := "# Title" }
      { run := RunOutcome.calledProcessError 2 "" "unknown option" } { }).result =
      Outcome.raised (Err.runtimeError ("mkslides build failed: " ++ "unknown option")) ∧
    (generate_slides { markdown_content := "# Title" }
      { run := RunOutcome.fileNotFound } { }).result =
      Outcome.raised (Err.runtimeError
        "'mkslides' command not found. Is it installed and in the PATH?") ∧
    (∀ e : String, "mkslides build failed: " ++ e ≠
      "'mkslides' command not found. Is it installed and in the PATH?") :=
  C8_distinct_failure_modes { markdown_content := "# Title" } { } 2 ""
    "unknown option" (by decide)

/-- C9: with no discrete override present (no theme, no highlight theme, no
revealjs options — the source has no structured-config parameter at all), no
effective configuration is produced: `composeConfig` is `none`, no temporary
config file is ever created on any path, and whenever the external command
line is assembled it is exactly the base command with no `-f` argument. -/
theorem C9_no_config_sources_no_config (req : Request) (env : Env) (init : FsState)
    (ht : req.slides_theme = none) (hh : req.slides_highlight_theme = none)
    (ho : req.revealjs_options = none) :
    composeConfig req = none ∧
    Event.createTempConfig ∉ (generate_slides req env init).events ∧
    (∀ cmd, (generate_slides req env init).command = some cmd →
      cmd = ["mkslides", "build", temp_md_path, "-d", temp_build_path] ∧
      "-f" ∉ cmd) := by
  have hw : wantConfig req = false := by
    simp [wantConfig, ht, hh, ho, truthyStr, truthyDict]
  refine ⟨by simp [composeConfig, hw], ?_, ?_⟩
  · cases hbv : req.markdown_content == "" with
    | true => simp [generate_slides, hbv]
    | false =>
      cases h1 : env.createMdFails with
      | true => simp [generate_slides, hbv, h1]
      | false =>
        have e1 : generate_slides req env init =
            phaseClearSlot env [] { init with mdFile := true } [init.slot]
              [Event.createTempMd] := by
          simp [generate_slides, hbv, h1, hw]
        rw [e1]
        exact phaseClearSlot_events_noConfig env _ _ _ _ (by simp)
  · intro cmd hcmd
    cases hbv : req.markdown_content == "" with
    | true => simp [generate_slides, hbv] at hcmd
    | false =>
      cases h1 : env.createMdFails with
      | true => simp [generate_slides, hbv, h1] at hcmd
      | false =>
        have e1 : generate_slides req env init =
            phaseClearSlot env [] { init with mdFile := true } [init.slot]
              [Event.createTempMd] := by
          simp [generate_slides, hbv, h1, hw]
        rw [e1] at hcmd
        rcases phaseClearSlot_command env [] { init with mdFile := true } [init.slot]
          [Event.createTempMd] with hc | hc
        · rw [hc] at hcmd
          cases hcmd
        · rw [hc] at hcmd
          have hcc : cmd = ["mkslides", "build", temp_md_path, "-d", temp_build_path] := by
            have := Option.some.inj hcmd
            simpa using this.symm
          subst hcc
          exact ⟨rfl, by decide⟩

/-- Witness for C9: a concrete override-free request whose command line, on a
successful build, is exactly the base command. -/
theorem C9_no_config_sources_no_config_witness :
    composeConfig { markdown_content := "# T" } = none ∧
    Event.createTempConfig ∉ (generate_slides { markdown_content := "# T" }
      { run := RunOutcome.success [] "" "" } { }).events ∧
    ("-f" ∉ ["mkslides", "build", temp_md_path, "-d", temp_build_path]) := by
  have h := C9_no_config_sources_no_config { markdown_content := "# T" }
    { run := RunOutcome.success [] "" "" } { } rfl rfl rfl
  exact ⟨h.1, h.2.1, (h.2.2 _ rfl).2⟩

/-- C10: when `os.makedirs` succeeds but creating or binding the TCP listener
raises, `start_server_in_thread` swallows the exception (lines 57–59): no
exception propagates, no server thread starts, the global `server_thread`
state is left exactly as it was — so when it was unset, a later activation
call with a working listener attempts the start again and succeeds. -/
theorem C10_bind_failure_swallowed (env : ServerEnv) (s : ServerState)
    (hmk : env.makedirsFails = false) (hbind : env.bindFails = true)
    (hthread : s.server_thread = none) :
    (start_server_in_thread env s).raised = false ∧
    (start_server_in_thread env s).startedNew = false ∧
    (start_server_in_thread env s).state = s ∧
    (∀ env2 : ServerEnv, env2.makedirsFails = false → env2.bindFails = false →
      (start_server_in_thread env2 (start_server_in_thread env s).state).startedNew =
        true) := by
  have h1 : start_server_in_thread env s =
      { state := s, raised := false, startedNew := false } := by
    simp [start_server_in_thread, hthread, start_attempt, hmk, hbind]
  rw [h1]
  refine ⟨rfl, rfl, rfl, ?_⟩
  intro env2 hm2 hb2
  simp [start_server_in_thread, hthread, start_attempt, hm2, hb2]

/-- Witness for C10: the concrete first activation with a failing bind,
followed by a successful retry. -/
theorem C10_bind_failure_swallowed_witness :
    (start_server_in_thread { bindFails := true } { }).raised = false ∧
    (start_server_in_thread { bindFails := true } { }).startedNew = false ∧
    (start_server_in_thread { bindFails := true } { }).state = { } ∧
    (∀ env2 : ServerEnv, env2.makedirsFails = false → env2.bindFails = false →
      (start_server_in_thread env2
        (start_server_in_thread { bindFails := true } { }).state).startedNew = true) :=
  C10_bind_failure_swallowed { bindFails := true } { } rfl rfl rfl

end MkSlides
